import Mathlib

/-!
# TV Series Mood Recapper: the request/response orchestration of `src/App.jsx`

The component `App` keeps six pieces of React state and mutates them from three
asynchronous handlers: `searchSeries`, `selectSeries` and `generateRecap`.  This file
embeds the three handlers as pure functions on an explicit state record.

* Values that come back from `response.json()` are arbitrary JSON, so they are modelled by
  `JVal`; the state slots fed from them hold a `JVal` too.
* What the network does is an input of each handler: a `FetchResult` says whether the
  `fetch` promise rejected or resolved, and what `response.json()` gave.
* Each handler returns the state once every promise it started has settled, together with
  the list of observable events (requests issued, console output, calls of
  `generateRecap`) in program order.
* Library operations of ECMAScript whose full definition is outside the repository
  (`ToString` of a non-primitive, `x > 0` on a non-number, the wording of a `TypeError`)
  are the fields of `Runtime`.
-/

namespace MoodRecapper

/-! ## JSON values and the JavaScript operations the handlers apply to them -/

/-- A JavaScript value as produced by `response.json()`, plus `undefined` (the value of a
missing property).  A JSON number is a finite double, hence a rational.  An object is the
list of its own properties; `JSON.parse` keeps one value per key, and a property is looked
up by the first entry with its key. -/
inductive JVal where
  | undefined
  | null
  | bool (b : Bool)
  | num (q : Rat)
  | str (s : String)
  | arr (items : List JVal)
  | obj (fields : List (String × JVal))

/-- Operations of the language runtime that the handlers rely on and that are not defined
in the repository. -/
structure Runtime where
  /-- `ToString(v)` for a number, an array or an object, as a template literal performs it.
  It throws a `TypeError` (here: its message) for some objects. -/
  toStringOf : JVal → Except String String
  /-- The comparison `v > 0` for a string, an array or an object (`ToPrimitive`, then
  `ToNumber`); it can throw for the same objects as `toStringOf`. -/
  gtZeroOf : JVal → Except String Bool
  /-- The `message` of the `TypeError` raised by reading property `key` of `undefined` or
  `null`. -/
  typeErrorMessage : JVal → String → String

/-- `ToBoolean(v)`: the falsy values are `undefined`, `null`, `false`, `0` and `""`. -/
def truthy : JVal → Bool
  | .undefined => false
  | .null => false
  | .bool b => b
  | .num q => decide (q ≠ 0)
  | .str s => decide (s ≠ "")
  | .arr _ => true
  | .obj _ => true

/-- The expression `v === lit` for a string literal `lit`. -/
def strictEqStr : JVal → String → Bool
  | .str s, lit => decide (s = lit)
  | _, _ => false

/-- The expression `a || b`. -/
def jsOr (a b : JVal) : JVal :=
  if truthy a then a else b

/-- Number of UTF-16 code units of a string, the value of its `length` property. -/
def utf16Length (s : String) : Nat :=
  (s.data.map fun c => if c.val < 0x10000 then 1 else 2).sum

/-- The expression `v.key` for an identifier `key`.  Reading a property of `undefined` or
`null` throws.  An array and a string own `length`; none of the other names the handlers
read (`Response`, `Search`, `Error`, `Title`, `Plot`, `Genre`, `Year`, `candidates`,
`content`, `parts`, `text`) exists on a built-in prototype, so on a primitive or an array
they are `undefined`. -/
def getProp (rt : Runtime) (v : JVal) (key : String) : Except String JVal :=
  match v with
  | .undefined => .error (rt.typeErrorMessage v key)
  | .null => .error (rt.typeErrorMessage v key)
  | .obj fields => .ok ((fields.lookup key).getD .undefined)
  | .arr items => .ok (if key = "length" then .num items.length else .undefined)
  | .str s => .ok (if key = "length" then .num (utf16Length s) else .undefined)
  | .bool _ => .ok .undefined
  | .num _ => .ok .undefined

/-- The expression `v[0]`.  On an array it is the first element, on an object the property
named `"0"`, on a non-empty string its first code unit as a one-character string (for a
character outside the Basic Multilingual Plane the real value is a lone surrogate; the
handlers only read named properties of it, which are `undefined` in both cases). -/
def getIndex0 (rt : Runtime) (v : JVal) : Except String JVal :=
  match v with
  | .undefined => .error (rt.typeErrorMessage v "0")
  | .null => .error (rt.typeErrorMessage v "0")
  | .obj fields => .ok ((fields.lookup "0").getD .undefined)
  | .arr items => .ok (items.headD .undefined)
  | .str s => .ok (match s.data with
      | [] => .undefined
      | c :: _ => .str (String.singleton c))
  | .bool _ => .ok .undefined
  | .num _ => .ok .undefined

/-- The expression `v > 0`. -/
def gtZero (rt : Runtime) (v : JVal) : Except String Bool :=
  match v with
  | .undefined => .ok false
  | .null => .ok false
  | .bool b => .ok b
  | .num q => .ok (decide (0 < q))
  | other => rt.gtZeroOf other

/-- `ToString(v)` as performed by a template literal on the placeholder `${v}`. -/
def toStr (rt : Runtime) (v : JVal) : Except String String :=
  match v with
  | .undefined => .ok "undefined"
  | .null => .ok "null"
  | .bool b => .ok (if b then "true" else "false")
  | .str s => .ok s
  | other => rt.toStringOf other

/-- The characters `String.prototype.trim` strips: ECMAScript `WhiteSpace` and
`LineTerminator`. -/
def isJsWhitespace (c : Char) : Bool :=
  let n := c.toNat
  n = 0x09 || n = 0x0A || n = 0x0B || n = 0x0C || n = 0x0D || n = 0x20 || n = 0xA0 ||
  n = 0x1680 || (0x2000 ≤ n && n ≤ 0x200A) || n = 0x2028 || n = 0x2029 || n = 0x202F ||
  n = 0x205F || n = 0x3000 || n = 0xFEFF

/-- The method `String.prototype.trim`. -/
def jsTrim (s : String) : String :=
  ⟨((s.data.dropWhile isJsWhitespace).reverse.dropWhile isJsWhitespace).reverse⟩

/-- The characters `encodeURIComponent` leaves as they are. -/
def isUriUnreserved (c : Char) : Bool :=
  c.isAlphanum || "-_.!~*\x27()".data.contains c

/-- The upper-case hexadecimal digit of a number below sixteen. -/
def hexDigit (n : Nat) : Char :=
  "0123456789ABCDEF".data.getD n '0'

/-- The escape `%XY` of one byte. -/
def percentByte (b : UInt8) : List Char :=
  ['%', hexDigit (b.toNat / 16), hexDigit (b.toNat % 16)]

/-- The global function `encodeURIComponent`: every character but the unreserved ones is
replaced by the escapes of its UTF-8 bytes. -/
def encodeURIComponent (s : String) : String :=
  ⟨s.data.flatMap fun c =>
    if isUriUnreserved c then [c] else (String.utf8EncodeChar c).flatMap percentByte⟩

/-- The method `String.prototype.includes` with a string argument. -/
def includes (s part : String) : Prop :=
  part.data <:+: s.data

instance (s part : String) : Decidable (includes s part) :=
  inferInstanceAs (Decidable (part.data <:+: s.data))

/-! ## The network and the observable events -/

/-- A call of `fetch`.  `body` is the value whose serialisation by `JSON.stringify` is the
request body. -/
structure Request where
  url : String
  method : String
  headers : List (String × String)
  body : Option JVal

/-- What `await response.json()` gives: the parsed value, or a rejection with the
`message` of the `SyntaxError`. -/
inductive Body where
  | json (value : JVal)
  | invalid (message : String)

/-- What `await fetch(...)` gives: a rejection carrying the `message` of the error, or a
response with its `ok` flag, its `statusText` and its body. -/
inductive FetchResult where
  | rejected (message : String)
  | resolved (ok : Bool) (statusText : String) (body : Body)

/-- Something a handler does that is visible outside the state. -/
inductive Event where
  | fetch (req : Request)
  | consoleError (label : String) (message : String)
  | generateRecap (seriesData : JVal)

/-- The requests among a list of events. -/
def fetches : List Event → List Request
  | [] => []
  | .fetch req :: rest => req :: fetches rest
  | _ :: rest => fetches rest

/-- The arguments of the calls of `generateRecap` among a list of events. -/
def recapCalls : List Event → List JVal
  | [] => []
  | .generateRecap d :: rest => d :: recapCalls rest
  | _ :: rest => recapCalls rest

/-! ## Component state and configuration -/

/-- The six `useState` slots of `App`. -/
structure AppState where
  seriesName : String
  searchResults : JVal
  selectedSeries : JVal
  recapResult : JVal
  isLoading : Bool
  error : JVal

/-- The initial values passed to `useState`. -/
def AppState.initial : AppState :=
  { seriesName := "", searchResults := .arr [], selectedSeries := .null,
    recapResult := .str "", isLoading := false, error := .str "" }

/-- What the handlers read from their surroundings: the runtime and the two keys taken
from `import.meta.env` (`none` when the variable is not set). -/
structure Env where
  rt : Runtime
  omdbApiKey : Option String
  geminiApiKey : Option String

/-- A key as a template literal renders it. -/
def keyText : Option String → String
  | some k => k
  | none => "undefined"

/-! ## `generateRecap` (lines 84-131) -/

/-- The template literal of lines 93-100 with its five placeholders filled in (the title
occurs twice); `tone` is the value of the conditional expression on line 94. -/
def promptText (title tone overview genres date : String) : String :=
  "Generate a 3-sentence recap for the TV series \"" ++ title ++ "\".\n" ++
  "    The recap should be " ++ tone ++ ".\n" ++
  "    Here\x27s some information about the series:\n" ++
  "    Overview: " ++ overview ++ "\n" ++
  "    Genres: " ++ genres ++ "\n" ++
  "    First Air Date: " ++ date ++ "\n" ++
  "\n" ++
  "    Recap for \"" ++ title ++ "\":"

/-- The expression `Math.random() > 0.5 ? 'funny and sarcastic' : 'emotional and
reflective'`, where `draw` is the number `Math.random()` returned. -/
def tonePhrase (draw : Rat) : String :=
  if draw > 0.5 then "funny and sarcastic" else "emotional and reflective"

/-- The constant `seriesOverview` of line 89. -/
def seriesOverview (rt : Runtime) (seriesData : JVal) : Except String JVal := do
  let plot ← getProp rt seriesData "Plot"
  pure (jsOr plot (.str "No overview available."))

/-- The constant `seriesGenres` of line 90. -/
def seriesGenres (rt : Runtime) (seriesData : JVal) : Except String JVal := do
  let genre ← getProp rt seriesData "Genre"
  pure (jsOr genre (.str "Unknown genres."))

/-- The constant `seriesFirstAirDate` of line 91. -/
def seriesFirstAirDate (rt : Runtime) (seriesData : JVal) : Except String JVal := do
  let year ← getProp rt seriesData "Year"
  pure (jsOr year (.str "Unknown date."))

/-- The texts that the template literal of lines 93-100 puts in place of
`${seriesTitle}`, `${seriesOverview}`, `${seriesGenres}` and `${seriesFirstAirDate}`, in
this order: the constants of lines 88-91 after `ToString`.  Reading a property of
`seriesData` or converting a value can throw a `TypeError`, whose message is returned. -/
def promptSlots (rt : Runtime) (seriesData : JVal) :
    Except String (String × String × String × String) := do
  let seriesTitle ← getProp rt seriesData "Title"
  let overviewValue ← seriesOverview rt seriesData
  let genresValue ← seriesGenres rt seriesData
  let dateValue ← seriesFirstAirDate rt seriesData
  let title ← toStr rt seriesTitle
  let overview ← toStr rt overviewValue
  let genres ← toStr rt genresValue
  let date ← toStr rt dateValue
  pure (title, overview, genres, date)

/-- Lines 88-100: the constant `prompt`, or the message of the `TypeError` thrown while it
is computed. -/
def buildPrompt (rt : Runtime) (draw : Rat) (seriesData : JVal) : Except String String := do
  let slots ← promptSlots rt seriesData
  pure (promptText slots.1 (tonePhrase draw) slots.2.1 slots.2.2.1 slots.2.2.2)

/-- The object `payload` of lines 103-105. -/
def recapPayload (prompt : String) : JVal :=
  .obj [("contents", .arr [.obj [("role", .str "user"),
    ("parts", .arr [.obj [("text", .str prompt)]])]])]

/-- The call of `fetch` on lines 107-113. -/
def recapRequest (env : Env) (prompt : String) : Request :=
  { url := "https://generativelanguage.googleapis.com/v1beta/models/" ++
      "gemini-2.0-flash:generateContent?key=" ++ keyText env.geminiApiKey,
    method := "POST",
    headers := [("Content-Type", "application/json")],
    body := some (recapPayload prompt) }

/-- The condition of the `if` on lines 117-119, with the short-circuit evaluation of
`&&`. -/
def recapHasContent (rt : Runtime) (result : JVal) : Except String Bool := do
  let candidates ← getProp rt result "candidates"
  if truthy candidates then
    let count ← getProp rt candidates "length"
    if (← gtZero rt count) then
      let first ← getIndex0 rt candidates
      let content ← getProp rt first "content"
      if truthy content then
        let parts ← getProp rt content "parts"
        if truthy parts then
          let partCount ← getProp rt parts "length"
          gtZero rt partCount
        else pure false
      else pure false
    else pure false
  else pure false

/-- The expression `result.candidates[0].content.parts[0].text` of line 120. -/
def firstPartText (rt : Runtime) (result : JVal) : Except String JVal := do
  let candidates ← getProp rt result "candidates"
  let first ← getIndex0 rt candidates
  let content ← getProp rt first "content"
  let parts ← getProp rt content "parts"
  let part ← getIndex0 rt parts
  getProp rt part "text"

/-- The `message` of the `Error` thrown on line 123. -/
def noContentMessage : String :=
  "Failed to generate recap: No content from AI."

/-- What the `catch` block of `generateRecap` puts in the error slot for an error with the
given `message` (line 127). -/
def recapError (message : String) : JVal :=
  .str ("Failed to generate recap: " ++ message)

/-- The `try` block of `generateRecap` after the request is sent (lines 109-124), run on
the state `st` reached just before it: the state it leaves, or the `message` of what it
throws.  The status of the response is not looked at. -/
def generateRecapTry (rt : Runtime) (gemini : FetchResult) (st : AppState) :
    Except String AppState :=
  match gemini with
  | .rejected message => .error message
  | .resolved _ _ (.invalid message) => .error message
  | .resolved _ _ (.json result) => do
    if (← recapHasContent rt result) then
      let text ← firstPartText rt result
      pure { st with recapResult := text }
    else
      .error noContentMessage

/-- The handler `generateRecap(seriesData)`.  `draw` is what `Math.random()` returns and
`gemini` what the request to the generative endpoint gives.  When computing `prompt`
throws, the promise of the handler rejects before its `try` statement is entered. -/
def generateRecap (env : Env) (draw : Rat) (gemini : FetchResult) (seriesData : JVal)
    (st : AppState) : AppState × List Event :=
  let st1 := { st with isLoading := true, error := .str "" }
  match buildPrompt env.rt draw seriesData with
  | .error _ => (st1, [.generateRecap seriesData])
  | .ok prompt =>
    let sent := [Event.generateRecap seriesData, .fetch (recapRequest env prompt)]
    match generateRecapTry env.rt gemini st1 with
    | .ok st2 => ({ st2 with isLoading := false }, sent)
    | .error message =>
      ({ st1 with error := recapError message, isLoading := false },
       sent ++ [.consoleError "Gemini API error:" message])

/-! ## `searchSeries` (lines 16-52) -/

/-- A `GET` request as `fetch(url)` issues it. -/
def getRequest (url : String) : Request :=
  { url := url, method := "GET", headers := [], body := none }

/-- The URL of lines 32-34. -/
def searchUrl (env : Env) (seriesName : String) : String :=
  "https://www.omdbapi.com/?s=" ++ encodeURIComponent seriesName ++
  "&type=series&apikey=" ++ keyText env.omdbApiKey

/-- The condition of the `if` on line 41, with the short-circuit evaluation of `&&`. -/
def searchFound (rt : Runtime) (data : JVal) : Except String Bool := do
  let response ← getProp rt data "Response"
  if strictEqStr response "True" then
    let search ← getProp rt data "Search"
    if truthy search then
      let count ← getProp rt search "length"
      gtZero rt count
    else pure false
  else pure false

/-- The `try` block of `searchSeries` after the request is sent (lines 36-45), run on the
state `st` reached just before it: the state it leaves, or the `message` of what it
throws. -/
def searchSeriesTry (rt : Runtime) (omdb : FetchResult) (st : AppState) :
    Except String AppState :=
  match omdb with
  | .rejected message => .error message
  | .resolved false statusText _ => .error ("OMDb API error: " ++ statusText)
  | .resolved true _ (.invalid message) => .error message
  | .resolved true _ (.json data) => do
    if (← searchFound rt data) then
      let search ← getProp rt data "Search"
      pure { st with searchResults := search }
    else
      let err ← getProp rt data "Error"
      let fallback := JVal.str ("No TV series found for \"" ++ st.seriesName ++ "\".")
      pure { st with error := jsOr err fallback }

/-- The handler `searchSeries()`.  `omdb` is what the search request gives, if it is
sent. -/
def searchSeries (env : Env) (omdb : FetchResult) (st : AppState) : AppState × List Event :=
  if jsTrim st.seriesName = "" then
    ({ st with error := .str "Please enter a TV series name.", searchResults := .arr [],
               selectedSeries := .null, recapResult := .str "" }, [])
  else
    let st1 := { st with isLoading := true, error := .str "", searchResults := .arr [],
                         selectedSeries := .null, recapResult := .str "" }
    let sent := [Event.fetch (getRequest (searchUrl env st.seriesName))]
    match searchSeriesTry env.rt omdb st1 with
    | .ok st2 => ({ st2 with isLoading := false }, sent)
    | .error message =>
      ({ st1 with error := .str ("Failed to search TV series: " ++ message),
                  isLoading := false },
       sent ++ [.consoleError "OMDb search error:" message])

/-! ## `selectSeries` (lines 55-81) -/

/-- The URL of lines 61-63; `idText` is the rendering of `seriesId`. -/
def detailUrl (env : Env) (idText : String) : String :=
  "https://www.omdbapi.com/?i=" ++ idText ++ "&plot=full&apikey=" ++ keyText env.omdbApiKey

/-- The `catch` block of `selectSeries` (lines 76-80), entered from state `st` after the
events `sent` with an error whose `message` is given. -/
def selectSeriesCatch (st : AppState) (sent : List Event) (message : String) :
    AppState × List Event :=
  ({ st with error := .str ("Failed to fetch series details: " ++ message),
             isLoading := false },
   sent ++ [.consoleError "OMDb details error:" message])

/-- The handler `selectSeries(seriesId)`.  `omdb` is what the detail request gives, if it
is sent; `draw` and `gemini` are handed to `generateRecap`, if it is called.  The call on
line 72 is not awaited: `selectSeries` returns once `generateRecap` has sent its request,
and `generateRecap` alone touches the state after that, so the state and the events once
both have settled are those of running one after the other. -/
def selectSeries (env : Env) (draw : Rat) (omdb gemini : FetchResult) (seriesId : JVal)
    (st : AppState) : AppState × List Event :=
  let st1 := { st with isLoading := true, error := .str "", recapResult := .str "" }
  match toStr env.rt seriesId with
  | .error message => selectSeriesCatch st1 [] message
  | .ok idText =>
    let sent := [Event.fetch (getRequest (detailUrl env idText))]
    match omdb with
    | .rejected message => selectSeriesCatch st1 sent message
    | .resolved false statusText _ =>
      selectSeriesCatch st1 sent ("OMDb API error: " ++ statusText)
    | .resolved true _ (.invalid message) => selectSeriesCatch st1 sent message
    | .resolved true _ (.json data) =>
      match getProp env.rt data "Response" with
      | .error message => selectSeriesCatch st1 sent message
      | .ok response =>
        if strictEqStr response "True" then
          let after := generateRecap env draw gemini data { st1 with selectedSeries := data }
          (after.1, sent ++ after.2)
        else
          match getProp env.rt data "Error" with
          | .error message => selectSeriesCatch st1 sent message
          | .ok err =>
            let fallback := JVal.str ("Failed to fetch details for series ID: " ++ idText)
            ({ st1 with error := jsOr err fallback }, sent)


/-! ## Values for evaluating the handlers on examples -/

/-- A runtime with the wording V8 gives a `TypeError`.  The two conversions answer as for a
plain object (`"[object Object]"`, which is not a number); the examples below apply them
to no value. -/
def exampleRuntime : Runtime :=
  { toStringOf := fun _ => .ok "[object Object]"
    gtZeroOf := fun _ => .ok false
    typeErrorMessage := fun v key =>
      "Cannot read properties of " ++
      (match v with
        | .null => "null"
        | _ => "undefined") ++
      " (reading \x27" ++ key ++ "\x27)" }

/-- An environment with both keys set. -/
def exampleEnv : Env :=
  { rt := exampleRuntime, omdbApiKey := some "omdb-key", geminiApiKey := some "gemini-key" }

/-- A state left by an earlier search, selection and recap. -/
def usedState (query : String) : AppState :=
  { seriesName := query,
    searchResults := .arr [.obj [("imdbID", .str "tt0903747"), ("Title", .str "Breaking Bad")]],
    selectedSeries := .obj [("Title", .str "Breaking Bad"), ("Response", .str "True")],
    recapResult := .str "An old recap.",
    isLoading := false,
    error := .str "An old error." }

/-- The detail record of the provider for `tt0903747`. -/
def breakingBad : JVal :=
  .obj [("Title", .str "Breaking Bad"), ("Year", .str "2008–2013"),
    ("Genre", .str "Crime, Drama, Thriller"),
    ("Plot", .str "A chemistry teacher turns to making drugs."),
    ("imdbID", .str "tt0903747"), ("Response", .str "True")]

/-- The provider's answer to a detail request for an identifier it does not know. -/
def unknownId : JVal :=
  .obj [("Response", .str "False"), ("Error", .str "Incorrect IMDb ID.")]

/-- The provider's answer to a search with one hit. -/
def oneHit : JVal :=
  .obj [("Search", .arr [.obj [("Title", .str "Breaking Bad"), ("Year", .str "2008–2013"),
      ("imdbID", .str "tt0903747"), ("Type", .str "series"), ("Poster", .str "N/A")]]),
    ("totalResults", .str "1"), ("Response", .str "True")]

/-- A response of the generative endpoint with the given `candidates`. -/
def withCandidates (candidates : List JVal) : JVal :=
  .obj [("candidates", .arr candidates)]

/-- A candidate whose content has the given parts. -/
def candidateOf (parts : List JVal) : JVal :=
  .obj [("content", .obj [("parts", .arr parts), ("role", .str "model")]),
    ("finishReason", .str "STOP")]

/-- The error body the generative endpoint sends with a non-2xx status. -/
def quotaExceeded : JVal :=
  .obj [("error", .obj [("code", .num 429), ("message", .str "Resource has been exhausted."),
    ("status", .str "RESOURCE_EXHAUSTED")])]

/-- The state once a search for "Breaking Bad" has returned one hit. -/
def afterSearch : AppState :=
  { seriesName := "Breaking Bad",
    searchResults := .arr [.obj [("Title", .str "Breaking Bad"), ("Year", .str "2008–2013"),
      ("imdbID", .str "tt0903747"), ("Type", .str "series"), ("Poster", .str "N/A")]],
    selectedSeries := .null,
    recapResult := .str "",
    isLoading := false,
    error := .str "" }

/-- The state in which `selectSeries` calls `generateRecap` for `breakingBad`. -/
def detailFetched : AppState :=
  { afterSearch with selectedSeries := breakingBad, isLoading := true }

/-- A content part that carries an image and no `text`. -/
def imagePart : JVal :=
  .obj [("inlineData", .obj [("mimeType", .str "image/png"), ("data", .str "iVBORw0KGgo=")])]

/-- A detail record whose plot is present and empty. -/
def emptyPlot : JVal :=
  .obj [("Title", .str "Breaking Bad"), ("Year", .str "2008–2013"),
    ("Genre", .str "Crime, Drama, Thriller"), ("Plot", .str ""),
    ("imdbID", .str "tt0903747"), ("Response", .str "True")]

/-- A detail record whose plot uses the words of a tone phrase. -/
def veep : JVal :=
  .obj [("Title", .str "Veep"), ("Year", .str "2012–2019"), ("Genre", .str "Comedy"),
    ("Plot", .str "A funny and sarcastic look at the office of the Vice President."),
    ("imdbID", .str "tt1759761"), ("Response", .str "True")]

/-! ## Lemmas on the JavaScript operations -/

theorem jsTrim_blank (s : String) (h : ∀ c ∈ s.data, isJsWhitespace c = true) :
    jsTrim s = "" := by
  have h1 : s.data.dropWhile isJsWhitespace = [] := by
    rw [List.dropWhile_eq_nil_iff]; exact h
  simp [jsTrim, h1]

theorem getProp_arr_length (rt : Runtime) (items : List JVal) :
    getProp rt (.arr items) "length" = .ok (.num items.length) := rfl

theorem strictEqStr_eq_true (v : JVal) (lit : String) :
    strictEqStr v lit = true ↔ v = .str lit := by
  cases v <;> simp [strictEqStr]

theorem jsOr_of_truthy (a b : JVal) (h : truthy a = true) : jsOr a b = a := by
  simp [jsOr, h]

theorem truthy_str (s : String) (h : s ≠ "") : truthy (.str s) = true := by
  simp [truthy, h]

/-! ## `searchSeries` -/

/-- C4: when the query is empty or made of whitespace only, `searchSeries` sends no request
and records no other event, puts "Please enter a TV series name." in the error slot, and
leaves the candidate list empty, the selection `null` and the recap empty, whatever the
state held before. -/
theorem searchSeries_blank_query (env : Env) (omdb : FetchResult) (st : AppState)
    (hblank : ∀ c ∈ st.seriesName.data, isJsWhitespace c = true) :
    (searchSeries env omdb st).2 = [] ∧
    (searchSeries env omdb st).1.error = .str "Please enter a TV series name." ∧
    (searchSeries env omdb st).1.searchResults = .arr [] ∧
    (searchSeries env omdb st).1.selectedSeries = .null ∧
    (searchSeries env omdb st).1.recapResult = .str "" := by
  simp [searchSeries, jsTrim_blank _ hblank]

theorem searchSeries_blank_query_witness :
    (∀ c ∈ (usedState " \t\n").seriesName.data, isJsWhitespace c = true) ∧
    (searchSeries exampleEnv (.rejected "offline") (usedState " \t\n")).2 = [] ∧
    (searchSeries exampleEnv (.rejected "offline") (usedState " \t\n")).1.error =
      .str "Please enter a TV series name." ∧
    (searchSeries exampleEnv (.rejected "offline") (usedState " \t\n")).1.searchResults =
      .arr [] ∧
    (searchSeries exampleEnv (.rejected "offline") (usedState " \t\n")).1.selectedSeries =
      .null ∧
    (searchSeries exampleEnv (.rejected "offline") (usedState " \t\n")).1.recapResult =
      .str "" :=
  ⟨by decide, searchSeries_blank_query exampleEnv (.rejected "offline") (usedState " \t\n")
    (by decide)⟩

/-- C8: for a query that is not blank and a response with HTTP ok whose `Response` is
`"True"` and whose `Search` is a non-empty array, `searchSeries` puts exactly that array
in the candidate list (same elements in the same order), leaves the error slot empty and
clears the loading flag. -/
theorem searchSeries_success (env : Env) (st : AppState) (statusText : String) (data : JVal)
    (hits : List JVal)
    (hquery : jsTrim st.seriesName ≠ "")
    (hresp : getProp env.rt data "Response" = .ok (.str "True"))
    (hsearch : getProp env.rt data "Search" = .ok (.arr hits))
    (hne : hits ≠ []) :
    (searchSeries env (.resolved true statusText (.json data)) st).1.searchResults =
      .arr hits ∧
    (searchSeries env (.resolved true statusText (.json data)) st).1.error = .str "" ∧
    (searchSeries env (.resolved true statusText (.json data)) st).1.isLoading = false := by
  have hpos : 0 < hits.length := List.length_pos.mpr hne
  simp [searchSeries, hquery, searchSeriesTry, searchFound, hresp, hsearch, strictEqStr,
    truthy, getProp_arr_length, gtZero, bind, Except.bind, pure, Except.pure, hpos]

theorem searchSeries_success_witness :
    (searchSeries exampleEnv (.resolved true "OK" (.json oneHit))
        (usedState "Breaking Bad")).1.searchResults =
      .arr [.obj [("Title", .str "Breaking Bad"), ("Year", .str "2008–2013"),
        ("imdbID", .str "tt0903747"), ("Type", .str "series"), ("Poster", .str "N/A")]] ∧
    (searchSeries exampleEnv (.resolved true "OK" (.json oneHit))
        (usedState "Breaking Bad")).1.error = .str "" ∧
    (searchSeries exampleEnv (.resolved true "OK" (.json oneHit))
        (usedState "Breaking Bad")).1.isLoading = false :=
  searchSeries_success exampleEnv (usedState "Breaking Bad") "OK" oneHit _
    (by decide) rfl rfl (by simp)

/-- C7: when a response received with HTTP ok has a `Response` other than `"True"` and a
non-empty string as `Error`, the error slot ends up holding exactly that string, after
`searchSeries` (for a query that is not blank, so that the request is sent) as well as
after `selectSeries` (for an identifier that can be rendered into the URL). -/
theorem provider_message_verbatim (env : Env) (statusText message : String)
    (data response : JVal)
    (hresp : getProp env.rt data "Response" = .ok response)
    (hflag : response ≠ .str "True")
    (herr : getProp env.rt data "Error" = .ok (.str message))
    (hmsg : message ≠ "") :
    (∀ st : AppState, jsTrim st.seriesName ≠ "" →
      (searchSeries env (.resolved true statusText (.json data)) st).1.error =
        .str message) ∧
    (∀ (draw : Rat) (gemini : FetchResult) (seriesId : JVal) (idText : String)
        (st : AppState),
      toStr env.rt seriesId = .ok idText →
      (selectSeries env draw (.resolved true statusText (.json data)) gemini seriesId
        st).1.error = .str message) := by
  have hne : strictEqStr response "True" = false := by
    cases h : strictEqStr response "True"
    · rfl
    · exact absurd ((strictEqStr_eq_true _ _).mp h) hflag
  constructor
  · intro st hquery
    simp [searchSeries, hquery, searchSeriesTry, searchFound, hresp, herr, hne,
      bind, Except.bind, pure, Except.pure, jsOr_of_truthy _ _ (truthy_str _ hmsg)]
  · intro draw gemini seriesId idText st hid
    simp [selectSeries, hid, hresp, herr, hne, jsOr_of_truthy _ _ (truthy_str _ hmsg)]

theorem provider_message_verbatim_witness :
    (searchSeries exampleEnv (.resolved true "OK" (.json unknownId))
        (usedState "Breaking Bad")).1.error = .str "Incorrect IMDb ID." ∧
    (selectSeries exampleEnv 0 (.resolved true "OK" (.json unknownId)) (.rejected "offline")
        (.str "tt0000000") afterSearch).1.error = .str "Incorrect IMDb ID." :=
  have h := provider_message_verbatim exampleEnv "OK" "Incorrect IMDb ID." unknownId
    (.str "False") rfl (by simp) rfl (by decide)
  ⟨h.1 (usedState "Breaking Bad") (by decide),
    h.2 0 (.rejected "offline") (.str "tt0000000") "tt0000000" afterSearch rfl⟩

/-! ## `generateRecap` -/

theorem recapHasContent_empty (rt : Runtime) (result : JVal)
    (hcand : getProp rt result "candidates" = .ok (.arr [])) :
    recapHasContent rt result = .ok false := by
  simp [recapHasContent, hcand, truthy, getProp_arr_length, gtZero, bind, Except.bind, pure,
    Except.pure]

theorem generateRecap_no_content (env : Env) (draw : Rat) (ok : Bool) (statusText : String)
    (result seriesData : JVal) (st : AppState) (prompt : String)
    (hprompt : buildPrompt env.rt draw seriesData = .ok prompt)
    (hguard : recapHasContent env.rt result = .ok false) :
    (generateRecap env draw (.resolved ok statusText (.json result)) seriesData st).1 =
      { st with error := recapError noContentMessage, isLoading := false } := by
  simp [generateRecap, hprompt, generateRecapTry, hguard, bind, Except.bind]

/-- C10: when the request of `generateRecap` is answered by a body whose `candidates` is
the empty array, the handler ends with the NoContent error in the error slot, which is
the text "Failed to generate recap: Failed to generate recap: No content from AI." (the
message thrown on line 123 behind the prefix of line 127), with the recap slot as it
found it and with the loading flag false; reached from `selectSeries` after a successful
detail fetch, the recap slot it found is the empty string, and so it stays. -/
theorem generateRecap_empty_candidates (env : Env) (draw : Rat) (ok : Bool)
    (statusText prompt : String) (result seriesData : JVal) (st : AppState)
    (hprompt : buildPrompt env.rt draw seriesData = .ok prompt)
    (hcand : getProp env.rt result "candidates" = .ok (.arr [])) :
    ((generateRecap env draw (.resolved ok statusText (.json result)) seriesData st).1.error =
        .str "Failed to generate recap: Failed to generate recap: No content from AI." ∧
      (generateRecap env draw (.resolved ok statusText (.json result)) seriesData
        st).1.recapResult = st.recapResult ∧
      (generateRecap env draw (.resolved ok statusText (.json result)) seriesData
        st).1.isLoading = false) ∧
    ∀ (seriesId : JVal) (idText detailStatus : String),
      toStr env.rt seriesId = .ok idText →
      getProp env.rt seriesData "Response" = .ok (.str "True") →
      (selectSeries env draw (.resolved true detailStatus (.json seriesData))
          (.resolved ok statusText (.json result)) seriesId st).1.error =
        .str "Failed to generate recap: Failed to generate recap: No content from AI." ∧
      (selectSeries env draw (.resolved true detailStatus (.json seriesData))
          (.resolved ok statusText (.json result)) seriesId st).1.recapResult = .str "" ∧
      (selectSeries env draw (.resolved true detailStatus (.json seriesData))
          (.resolved ok statusText (.json result)) seriesId st).1.isLoading = false := by
  have hguard := recapHasContent_empty env.rt result hcand
  have htext : recapError noContentMessage =
      .str "Failed to generate recap: Failed to generate recap: No content from AI." := rfl
  constructor
  · rw [generateRecap_no_content env draw ok statusText result seriesData st prompt hprompt
      hguard]
    exact ⟨htext, rfl, rfl⟩
  · intro seriesId idText detailStatus hid hresp
    simp only [selectSeries, hid, hresp, strictEqStr]
    simp [generateRecap_no_content env draw ok statusText result seriesData _ prompt hprompt
      hguard, htext]

theorem generateRecap_empty_candidates_witness :
    ((generateRecap exampleEnv 0 (.resolved true "OK" (.json (withCandidates []))) breakingBad
        (usedState "Breaking Bad")).1.error =
        .str "Failed to generate recap: Failed to generate recap: No content from AI." ∧
      (generateRecap exampleEnv 0 (.resolved true "OK" (.json (withCandidates []))) breakingBad
        (usedState "Breaking Bad")).1.recapResult = .str "An old recap." ∧
      (generateRecap exampleEnv 0 (.resolved true "OK" (.json (withCandidates []))) breakingBad
        (usedState "Breaking Bad")).1.isLoading = false) ∧
    (selectSeries exampleEnv 0 (.resolved true "OK" (.json breakingBad))
        (.resolved true "OK" (.json (withCandidates []))) (.str "tt0903747")
        (usedState "Breaking Bad")).1.error =
      .str "Failed to generate recap: Failed to generate recap: No content from AI." ∧
    (selectSeries exampleEnv 0 (.resolved true "OK" (.json breakingBad))
        (.resolved true "OK" (.json (withCandidates []))) (.str "tt0903747")
        (usedState "Breaking Bad")).1.recapResult = .str "" ∧
    (selectSeries exampleEnv 0 (.resolved true "OK" (.json breakingBad))
        (.resolved true "OK" (.json (withCandidates []))) (.str "tt0903747")
        (usedState "Breaking Bad")).1.isLoading = false :=
  have h := generateRecap_empty_candidates exampleEnv 0 true "OK" _ (withCandidates [])
    breakingBad (usedState "Breaking Bad") rfl rfl
  ⟨h.1, h.2 (.str "tt0903747") "tt0903747" "OK" rfl rfl⟩

/-! ## `selectSeries` -/

theorem recapCalls_append (xs ys : List Event) :
    recapCalls (xs ++ ys) = recapCalls xs ++ recapCalls ys := by
  induction xs with
  | nil => rfl
  | cons x xs ih => cases x <;> simp [recapCalls, ih]

theorem recapCalls_generateRecap (env : Env) (draw : Rat) (gemini : FetchResult)
    (seriesData : JVal) (st : AppState) :
    recapCalls (generateRecap env draw gemini seriesData st).2 = [seriesData] := by
  unfold generateRecap
  cases buildPrompt env.rt draw seriesData with
  | error e => rfl
  | ok prompt =>
    cases h : generateRecapTry env.rt gemini
      { st with isLoading := true, error := .str "" } with
    | error e => simp [h, recapCalls]
    | ok st2 => simp [h, recapCalls]

theorem recapCalls_selectSeriesCatch (st : AppState) (sent : List Event) (message : String) :
    recapCalls (selectSeriesCatch st sent message).2 = recapCalls sent := by
  simp [selectSeriesCatch, recapCalls_append, recapCalls]

/-- C5: `selectSeries` calls `generateRecap` exactly once, with the fetched record as its
argument, when the detail fetch succeeds (the request is sent, the response has HTTP ok,
its body parses and has `Response === "True"`); in every other case it does not call it. -/
theorem selectSeries_recap_calls (env : Env) (draw : Rat) (omdb gemini : FetchResult)
    (seriesId : JVal) (st : AppState) :
    (∀ (idText statusText : String) (data : JVal),
      toStr env.rt seriesId = .ok idText →
      omdb = .resolved true statusText (.json data) →
      getProp env.rt data "Response" = .ok (.str "True") →
      recapCalls (selectSeries env draw omdb gemini seriesId st).2 = [data]) ∧
    ((¬ ∃ (idText statusText : String) (data : JVal),
        toStr env.rt seriesId = .ok idText ∧
        omdb = .resolved true statusText (.json data) ∧
        getProp env.rt data "Response" = .ok (.str "True")) →
      recapCalls (selectSeries env draw omdb gemini seriesId st).2 = []) := by
  constructor
  · intro idText statusText data hid homdb hresp
    subst homdb
    simp [selectSeries, hid, hresp, strictEqStr, recapCalls_append, recapCalls,
      recapCalls_generateRecap]
  · intro hfail
    unfold selectSeries
    cases hid : toStr env.rt seriesId with
    | error e => simp [recapCalls_selectSeriesCatch, recapCalls]
    | ok idText =>
      cases omdb with
      | rejected message => simp [recapCalls_selectSeriesCatch, recapCalls]
      | resolved ok statusText body =>
        cases ok with
        | false => simp [recapCalls_selectSeriesCatch, recapCalls]
        | true =>
          cases body with
          | invalid message => simp [recapCalls_selectSeriesCatch, recapCalls]
          | json data =>
            cases hresp : getProp env.rt data "Response" with
            | error e => simp [hresp, recapCalls_selectSeriesCatch, recapCalls]
            | ok response =>
              cases hflag : strictEqStr response "True" with
              | true =>
                rw [strictEqStr_eq_true] at hflag
                subst hflag
                exact absurd ⟨idText, statusText, data, hid, rfl, hresp⟩ hfail
              | false =>
                cases herr : getProp env.rt data "Error" with
                | error e => simp [hresp, hflag, herr, recapCalls_selectSeriesCatch, recapCalls]
                | ok err => simp [hresp, hflag, herr, recapCalls]

theorem selectSeries_recap_calls_witness :
    recapCalls (selectSeries exampleEnv 0 (.resolved true "OK" (.json breakingBad))
      (.rejected "offline") (.str "tt0903747") afterSearch).2 = [breakingBad] ∧
    recapCalls (selectSeries exampleEnv 0 (.resolved true "OK" (.json unknownId))
      (.rejected "offline") (.str "tt0000000") afterSearch).2 = [] :=
  ⟨(selectSeries_recap_calls exampleEnv 0 (.resolved true "OK" (.json breakingBad))
      (.rejected "offline") (.str "tt0903747") afterSearch).1 "tt0903747" "OK" breakingBad
      rfl rfl rfl,
   (selectSeries_recap_calls exampleEnv 0 (.resolved true "OK" (.json unknownId))
      (.rejected "offline") (.str "tt0000000") afterSearch).2 (by
        rintro ⟨idText, statusText, data, -, homdb, hresp⟩
        injection homdb with _ _ hbody
        injection hbody with hdata
        subst hdata
        exact absurd hresp (by simp [unknownId, getProp, List.lookup]))⟩

/-- C1, where the code departs from it: a detail response with HTTP ok whose `Response` is
`"False"` makes `selectSeries` store the provider's message and return with the loading
flag still set; `generateRecap`, whose `finally` block would clear it, is not called. -/
theorem selectSeries_provider_error_keeps_loading :
    (selectSeries exampleEnv 0 (.resolved true "OK" (.json unknownId)) (.rejected "offline")
      (.str "tt0000000") afterSearch).1.isLoading = true ∧
    (selectSeries exampleEnv 0 (.resolved true "OK" (.json unknownId)) (.rejected "offline")
      (.str "tt0000000") afterSearch).1.error = .str "Incorrect IMDb ID." ∧
    recapCalls (selectSeries exampleEnv 0 (.resolved true "OK" (.json unknownId))
      (.rejected "offline") (.str "tt0000000") afterSearch).2 = [] :=
  ⟨rfl, rfl, rfl⟩

/-! ## The outcomes of `generateRecap` -/

/-- C2, where the code departs from it: the guard of lines 117-119 never looks at the
`text` of the first part.  For a response with one candidate whose only part carries an
image and no `text`, the guard holds, line 121 puts `undefined` in the recap slot, and
the handler ends with the error slot empty instead of the NoContent error; a response
without parts does end in that error. -/
theorem generateRecap_part_without_text :
    getProp exampleRuntime imagePart "text" = .ok .undefined ∧
    recapHasContent exampleRuntime (withCandidates [candidateOf [imagePart]]) = .ok true ∧
    (generateRecap exampleEnv 0
      (.resolved true "OK" (.json (withCandidates [candidateOf [imagePart]]))) breakingBad
      detailFetched).1.recapResult = .undefined ∧
    (generateRecap exampleEnv 0
      (.resolved true "OK" (.json (withCandidates [candidateOf [imagePart]]))) breakingBad
      detailFetched).1.error = .str "" ∧
    (generateRecap exampleEnv 0
      (.resolved true "OK" (.json (withCandidates [candidateOf [imagePart]]))) breakingBad
      detailFetched).1.isLoading = false ∧
    (generateRecap exampleEnv 0
      (.resolved true "OK" (.json (withCandidates [candidateOf []]))) breakingBad
      detailFetched).1.error =
      .str "Failed to generate recap: Failed to generate recap: No content from AI." :=
  ⟨rfl, rfl, rfl, rfl, rfl, rfl⟩

/-- C3, where the code departs from it: `generateRecap` does not look at the status of the
response.  A `429 Too Many Requests` answer with the endpoint's error body ends in the
NoContent error, the same as an answer without candidates, and the status text appears
nowhere; only a rejected `fetch` puts its own message in the error slot. -/
theorem generateRecap_ignores_status :
    (generateRecap exampleEnv 0 (.resolved false "Too Many Requests" (.json quotaExceeded))
      breakingBad detailFetched).1.error = recapError noContentMessage ∧
    (generateRecap exampleEnv 0 (.resolved true "OK" (.json (withCandidates [])))
      breakingBad detailFetched).1.error = recapError noContentMessage ∧
    (generateRecap exampleEnv 0 (.rejected "Failed to fetch")
      breakingBad detailFetched).1.error = recapError "Failed to fetch" :=
  ⟨rfl, rfl, rfl⟩

/-! ## The prompt -/

theorem prefix_of_prefix_append_cons {α : Type} (P X Y : List α) (c : α) (hc : c ∉ P)
    (h : P <+: X ++ c :: Y) : P <+: X := by
  have hX : X ++ [c] <+: X ++ c :: Y := by
    refine ⟨Y, ?_⟩
    simp
  rcases List.prefix_or_prefix_of_prefix h hX with h1 | h1
  · rcases List.prefix_concat_iff.mp h1 with h2 | h2
    · exact absurd (by rw [h2]; simp) hc
    · exact h2
  · exact absurd (h1.mem (by simp)) hc

theorem infix_split {α : Type} (P X Y : List α) (c : α) (hc : c ∉ P)
    (h : P <:+: X ++ c :: Y) : P <:+: X ∨ P <:+: Y := by
  induction X with
  | nil =>
    rcases List.infix_cons_iff.mp h with h1 | h1
    · exact Or.inl (prefix_of_prefix_append_cons P [] Y c hc h1).isInfix
    · exact Or.inr h1
  | cons x X ih =>
    rcases List.infix_cons_iff.mp h with h1 | h1
    · exact Or.inl (prefix_of_prefix_append_cons P (x :: X) Y c hc h1).isInfix
    · rcases ih h1 with h2 | h2
      · exact Or.inl (List.infix_cons h2)
      · exact Or.inr h2

theorem infix_of_infix_cons {α : Type} (a c : α) (P Y : List α) (hne : a ≠ c)
    (h : a :: P <:+: c :: Y) : a :: P <:+: Y := by
  rcases List.infix_cons_iff.mp h with h1 | h1
  · exact absurd (List.cons_prefix_cons.mp h1).1 hne
  · exact h1

set_option maxRecDepth 8000 in
theorem promptText_data (t tone o g d : String) :
    (promptText t tone o g d).data =
      "Generate a 3-sentence recap for the TV series ".data ++ '"' :: (t.data ++ '"' ::
      ((".\n    The recap should be ".data ++ tone.data ++
        ".\n    Here\x27s some information about the series".data) ++ ':' ::
      ("\n    Overview".data ++ ':' :: (' ' :: o.data ++ '\n' ::
      ("    Genres".data ++ ':' :: (' ' :: g.data ++ '\n' ::
      ("    First Air Date".data ++ ':' :: (' ' :: d.data ++ '\n' ::
      ("\n    Recap for ".data ++ '"' :: (t.data ++ '"' :: [':'])))))))))) := by
  simp [promptText]

theorem phrase_in_prompt (P P' : List Char) (a : Char) (t tone o g d : String)
    (hP : P = a :: P') (ha : a ≠ ' ')
    (hq : '"' ∉ P) (hc : ':' ∉ P) (hn : '\n' ∉ P)
    (h1 : ¬ P <:+: "Generate a 3-sentence recap for the TV series ".data)
    (h2 : ¬ P <:+: ".\n    The recap should be ".data ++ tone.data ++
      ".\n    Here\x27s some information about the series".data)
    (h3 : ¬ P <:+: "\n    Overview".data)
    (h4 : ¬ P <:+: "    Genres".data)
    (h5 : ¬ P <:+: "    First Air Date".data)
    (h6 : ¬ P <:+: "\n    Recap for ".data)
    (h7 : ¬ P <:+: [':'])
    (h : P <:+: (promptText t tone o g d).data) :
    P <:+: t.data ∨ P <:+: o.data ∨ P <:+: g.data ∨ P <:+: d.data := by
  rw [promptText_data] at h
  have strip : ∀ Y : List Char, P <:+: ' ' :: Y → P <:+: Y := by
    intro Y hY
    rw [hP] at hY ⊢
    exact infix_of_infix_cons a ' ' P' Y ha hY
  rcases infix_split _ _ _ _ hq h with h | h
  · exact absurd h h1
  rcases infix_split _ _ _ _ hq h with h | h
  · exact Or.inl h
  rcases infix_split _ _ _ _ hc h with h | h
  · exact absurd h h2
  rcases infix_split _ _ _ _ hc h with h | h
  · exact absurd h h3
  rcases infix_split _ (' ' :: o.data) _ _ hn h with h | h
  · exact Or.inr (Or.inl (strip _ h))
  rcases infix_split _ _ _ _ hc h with h | h
  · exact absurd h h4
  rcases infix_split _ (' ' :: g.data) _ _ hn h with h | h
  · exact Or.inr (Or.inr (Or.inl (strip _ h)))
  rcases infix_split _ _ _ _ hc h with h | h
  · exact absurd h h5
  rcases infix_split _ (' ' :: d.data) _ _ hn h with h | h
  · exact Or.inr (Or.inr (Or.inr (strip _ h)))
  rcases infix_split _ _ _ _ hq h with h | h
  · exact absurd h h6
  rcases infix_split _ _ _ _ hq h with h | h
  · exact Or.inl h
  · exact absurd h h7

theorem includes_append_right (s part : String) : includes (s ++ part) part := by
  unfold includes
  rw [String.data_append]
  exact (List.suffix_append _ _).isInfix

theorem includes_append_left (s u part : String) (h : includes s part) :
    includes (s ++ u) part := by
  unfold includes at h ⊢
  rw [String.data_append]
  exact h.trans (List.prefix_append _ _).isInfix

theorem promptText_includes (t tone o g d : String) :
    includes (promptText t tone o g d) t ∧ includes (promptText t tone o g d) tone ∧
    includes (promptText t tone o g d) o ∧ includes (promptText t tone o g d) g ∧
    includes (promptText t tone o g d) d := by
  unfold promptText
  refine ⟨?_, ?_, ?_, ?_, ?_⟩ <;>
    repeat (first
      | with_reducible exact includes_append_right _ _
      | with_reducible apply includes_append_left)

theorem tonePhrase_cases (draw : Rat) :
    tonePhrase draw = "funny and sarcastic" ∨ tonePhrase draw = "emotional and reflective" := by
  unfold tonePhrase
  split
  · exact Or.inl rfl
  · exact Or.inr rfl

theorem tonePhrase_zero : tonePhrase 0 = "emotional and reflective" := by
  norm_num [tonePhrase]

theorem buildPrompt_of_slots (rt : Runtime) (draw : Rat) (data : JVal) (t o g d : String)
    (hslots : promptSlots rt data = .ok (t, o, g, d)) :
    buildPrompt rt draw data = .ok (promptText t (tonePhrase draw) o g d) := by
  simp [buildPrompt, hslots, bind, Except.bind, pure, Except.pure]

set_option maxRecDepth 8000 in
/-- C6, as amended: the prompt built by `generateRecap` contains the tone phrase selected
by the draw, which is one of "funny and sarcastic" and "emotional and reflective"; it
contains the other phrase exactly when the text put in for the title, the overview, the
genres or the date contains it.  So the prompt holds exactly one of the two phrases
whenever the series detail itself uses neither. -/
theorem buildPrompt_tone (rt : Runtime) (draw : Rat) (data : JVal) (t o g d : String)
    (hslots : promptSlots rt data = .ok (t, o, g, d)) :
    buildPrompt rt draw data = .ok (promptText t (tonePhrase draw) o g d) ∧
    (tonePhrase draw = "funny and sarcastic" ∨
      tonePhrase draw = "emotional and reflective") ∧
    includes (promptText t (tonePhrase draw) o g d) (tonePhrase draw) ∧
    ∀ other : String,
      other = "funny and sarcastic" ∨ other = "emotional and reflective" →
      other ≠ tonePhrase draw →
      (includes (promptText t (tonePhrase draw) o g d) other ↔
        includes t other ∨ includes o other ∨ includes g other ∨ includes d other) := by
  refine ⟨buildPrompt_of_slots rt draw data t o g d hslots, tonePhrase_cases draw,
    (promptText_includes _ _ _ _ _).2.1, ?_⟩
  intro other hother hne
  constructor
  · intro h
    rcases hother with rfl | rfl
    · rcases tonePhrase_cases draw with htone | htone
      · exact absurd htone.symm hne
      · rw [htone] at h
        exact phrase_in_prompt _ _ 'f' t _ o g d rfl (by decide) (by decide) (by decide)
          (by decide) (by decide) (by decide) (by decide) (by decide) (by decide) (by decide)
          (by decide) h
    · rcases tonePhrase_cases draw with htone | htone
      · rw [htone] at h
        exact phrase_in_prompt _ _ 'e' t _ o g d rfl (by decide) (by decide) (by decide)
          (by decide) (by decide) (by decide) (by decide) (by decide) (by decide) (by decide)
          (by decide) h
      · exact absurd htone.symm hne
  · have hall := promptText_includes t (tonePhrase draw) o g d
    unfold includes at hall ⊢
    rintro (h | h | h | h)
    · exact h.trans hall.1
    · exact h.trans hall.2.2.1
    · exact h.trans hall.2.2.2.1
    · exact h.trans hall.2.2.2.2

theorem buildPrompt_tone_witness :
    promptSlots exampleRuntime breakingBad =
      .ok ("Breaking Bad", "A chemistry teacher turns to making drugs.",
        "Crime, Drama, Thriller", "2008–2013") ∧
    buildPrompt exampleRuntime 0 breakingBad =
      .ok (promptText "Breaking Bad" (tonePhrase 0)
        "A chemistry teacher turns to making drugs." "Crime, Drama, Thriller" "2008–2013") ∧
    tonePhrase 0 = "emotional and reflective" ∧
    includes (promptText "Breaking Bad" (tonePhrase 0)
      "A chemistry teacher turns to making drugs." "Crime, Drama, Thriller" "2008–2013")
      "emotional and reflective" ∧
    ¬ includes (promptText "Breaking Bad" (tonePhrase 0)
      "A chemistry teacher turns to making drugs." "Crime, Drama, Thriller" "2008–2013")
      "funny and sarcastic" :=
  have h := buildPrompt_tone exampleRuntime 0 breakingBad "Breaking Bad"
    "A chemistry teacher turns to making drugs." "Crime, Drama, Thriller" "2008–2013" rfl
  ⟨rfl, h.1, tonePhrase_zero, tonePhrase_zero ▸ h.2.2.1,
    (h.2.2.2 "funny and sarcastic" (Or.inl rfl) (by rw [tonePhrase_zero]; decide)).not.mpr
      (by decide)⟩

/-- C6 as stated fails: for a series whose plot reads "A funny and sarcastic look at ..."
and a draw of 0, which selects "emotional and reflective", the prompt contains both
phrases. -/
theorem prompt_with_both_phrases :
    buildPrompt exampleRuntime 0 veep =
      .ok (promptText "Veep" "emotional and reflective"
        "A funny and sarcastic look at the office of the Vice President." "Comedy"
        "2012–2019") ∧
    includes (promptText "Veep" "emotional and reflective"
      "A funny and sarcastic look at the office of the Vice President." "Comedy"
      "2012–2019") "funny and sarcastic" ∧
    includes (promptText "Veep" "emotional and reflective"
      "A funny and sarcastic look at the office of the Vice President." "Comedy"
      "2012–2019") "emotional and reflective" := by
  refine ⟨?_, ?_, (promptText_includes _ _ _ _ _).2.1⟩
  · rw [← tonePhrase_zero]
    exact buildPrompt_of_slots exampleRuntime 0 veep _ _ _ _ rfl
  · have hplot : includes "A funny and sarcastic look at the office of the Vice President."
        "funny and sarcastic" := by decide
    have hall := promptText_includes "Veep" "emotional and reflective"
      "A funny and sarcastic look at the office of the Vice President." "Comedy" "2012–2019"
    unfold includes at hplot hall ⊢
    exact hplot.trans hall.2.2.1

/-- C9 as stated fails: a record whose `Plot` is present and is the empty string gets the
fallback "No overview available." in the overview slot. -/
theorem fallback_for_empty_plot :
    getProp exampleRuntime emptyPlot "Plot" = .ok (.str "") ∧
    promptSlots exampleRuntime emptyPlot =
      .ok ("Breaking Bad", "No overview available.", "Crime, Drama, Thriller",
        "2008–2013") :=
  ⟨rfl, rfl⟩

/-- C9, as amended: the prompt built by `generateRecap` is the template filled with the
rendering of the title and, for the plot, the genre string and the year, the rendering of
the field when the field is truthy and the fallback "No overview available.", "Unknown
genres." or "Unknown date." when it is falsy, that is absent, `null`, `false`, `0` or the
empty string.  A field that is a non-empty string is thus embedded verbatim, and each of
the four texts occurs in the prompt. -/
theorem buildPrompt_fallbacks (rt : Runtime) (draw : Rat) (data title plot genre year : JVal)
    (t o g d : String)
    (hT : getProp rt data "Title" = .ok title)
    (hP : getProp rt data "Plot" = .ok plot)
    (hG : getProp rt data "Genre" = .ok genre)
    (hY : getProp rt data "Year" = .ok year)
    (ht : toStr rt title = .ok t)
    (ho : toStr rt (if truthy plot then plot else .str "No overview available.") = .ok o)
    (hg : toStr rt (if truthy genre then genre else .str "Unknown genres.") = .ok g)
    (hd : toStr rt (if truthy year then year else .str "Unknown date.") = .ok d) :
    buildPrompt rt draw data = .ok (promptText t (tonePhrase draw) o g d) ∧
    (includes (promptText t (tonePhrase draw) o g d) t ∧
      includes (promptText t (tonePhrase draw) o g d) o ∧
      includes (promptText t (tonePhrase draw) o g d) g ∧
      includes (promptText t (tonePhrase draw) o g d) d) ∧
    (∀ s : String, title = .str s → t = s) ∧
    ((∀ s : String, plot = .str s → s ≠ "" → o = s) ∧
      (truthy plot = false → o = "No overview available.")) ∧
    ((∀ s : String, genre = .str s → s ≠ "" → g = s) ∧
      (truthy genre = false → g = "Unknown genres.")) ∧
    ((∀ s : String, year = .str s → s ≠ "" → d = s) ∧
      (truthy year = false → d = "Unknown date.")) := by
  have hslots : promptSlots rt data = .ok (t, o, g, d) := by
    simp [promptSlots, seriesOverview, seriesGenres, seriesFirstAirDate, jsOr, hT, hP, hG, hY,
      ht, ho, hg, hd, bind, Except.bind, pure, Except.pure]
  have hall := promptText_includes t (tonePhrase draw) o g d
  have slot : ∀ (v : JVal) (fallback text : String),
      toStr rt (if truthy v then v else .str fallback) = .ok text →
      (∀ s : String, v = .str s → s ≠ "" → text = s) ∧ (truthy v = false → text = fallback) := by
    intro v fallback text h
    constructor
    · intro s hv hs
      subst hv
      rw [if_pos (truthy_str s hs)] at h
      exact (Except.ok.inj h).symm
    · intro hv
      rw [hv] at h
      exact (Except.ok.inj h).symm
  refine ⟨buildPrompt_of_slots rt draw data t o g d hslots,
    ⟨hall.1, hall.2.2.1, hall.2.2.2.1, hall.2.2.2.2⟩, ?_, slot _ _ _ ho, slot _ _ _ hg,
    slot _ _ _ hd⟩
  intro s hs
  subst hs
  exact (Except.ok.inj ht).symm

theorem buildPrompt_fallbacks_witness :
    buildPrompt exampleRuntime 0 emptyPlot =
      .ok (promptText "Breaking Bad" (tonePhrase 0) "No overview available."
        "Crime, Drama, Thriller" "2008–2013") ∧
    buildPrompt exampleRuntime 0 (.obj [("Title", .str "Lost"), ("Response", .str "True")]) =
      .ok (promptText "Lost" (tonePhrase 0) "No overview available." "Unknown genres."
        "Unknown date.") :=
  ⟨(buildPrompt_fallbacks exampleRuntime 0 emptyPlot (.str "Breaking Bad") (.str "")
      (.str "Crime, Drama, Thriller") (.str "2008–2013") "Breaking Bad"
      "No overview available." "Crime, Drama, Thriller" "2008–2013"
      rfl rfl rfl rfl rfl rfl rfl rfl).1,
   (buildPrompt_fallbacks exampleRuntime 0
      (.obj [("Title", .str "Lost"), ("Response", .str "True")]) (.str "Lost") .undefined
      .undefined .undefined "Lost" "No overview available." "Unknown genres." "Unknown date."
      rfl rfl rfl rfl rfl rfl rfl rfl).1⟩

end MoodRecapper
